import Mathlib

/-!
Verification of the `macmasq` utility (src/macmasq.c), a Linux tool that
randomizes the MAC address of a named network interface.

The C program is embedded shallowly:

* `MacAddress` mirrors `struct store_mac` (six bytes).
* `generate_mac_address` mirrors the C function of the same name; the
  `rand()` stream is passed explicitly as `r : Nat → Nat`, call `i` of
  `rand()` returning `r i`.
* `change_mac_address` mirrors the C function of the same name.  The
  outcomes of the privileged operations (`socket`, the four `ioctl`
  calls) are supplied by an oracle `Env`; the kernel-side state of the
  target interface is `IfState` (flags and hardware address), a failing
  ioctl leaves it unchanged, a succeeding `SIOCSIFFLAGS`/`SIOCSIFHWADDR`
  installs the requested value.  The function returns its C result, the
  ordered trace of system calls it issued (`Event`), and the final
  kernel state.
* `set_ifr_name` mirrors lines 91-92 (the `strncpy` into
  `ifr_name` followed by explicit null-termination); C strings are
  byte lists, terminated at the first 0.
* `main_run` mirrors `main`: argument check, one random generation, one
  call to `change_mac_address`, output and exit code.
-/

/-- The six bytes of a MAC address (C `struct store_mac`). -/
structure MacAddress where
  bytes : List Nat
  deriving DecidableEq, Repr

/-- C lines 57-66: six `rand() % 256` bytes, then
`bytes[0] = (bytes[0] & 0xFE) | 0x02`. -/
def generate_mac_address (r : Nat → Nat) : MacAddress :=
  { bytes := [((r 0 % 256) &&& 0xFE) ||| 0x02,
              r 1 % 256, r 2 % 256, r 3 % 256, r 4 % 256, r 5 % 256] }

/-- `IFF_UP` on Linux. -/
def IFF_UP : Nat := 1

/-- `IFNAMSIZ` on Linux. -/
def IFNAMSIZ : Nat := 16

/-- Kernel-side state of the target interface: its administrative flags
(a 16-bit `short` in C) and its hardware address. -/
structure IfState where
  flags : Nat
  hwaddr : List Nat
  deriving DecidableEq, Repr

/-- Oracle giving the outcome of each privileged operation that
`change_mac_address` may attempt, in program order.  `recoverOk` is the
outcome of the unchecked best-effort `SIOCSIFFLAGS` issued after a
failed `SIOCSIFHWADDR` (line 120). -/
structure Env where
  socketOk : Bool
  getFlagsOk : Bool
  setFlagsDownOk : Bool
  setHwAddrOk : Bool
  recoverOk : Bool
  setFlagsUpOk : Bool
  deriving DecidableEq, Repr

/-- One privileged operation issued by `change_mac_address`, tagged with
its call site and outcome.  The three `SIOCSIFFLAGS` call sites
(line 106 bring-down, line 120 best-effort recovery, line 128 bring-up)
are distinct constructors carrying the flag value they request. -/
inductive Event where
  | socketCall (ok : Bool)
  | getFlags (ok : Bool)
  | setFlagsDown (flags : Nat) (ok : Bool)
  | setHwAddr (mac : List Nat) (ok : Bool)
  | setFlagsRecover (flags : Nat) (ok : Bool)
  | setFlagsUp (flags : Nat) (ok : Bool)
  | closeFd
  deriving DecidableEq, Repr

/-- Recognize the `close(socket_fd)` event. -/
def Event.isClose : Event → Bool
  | .closeFd => true
  | _ => false

/-- Recognize a `SIOCSIFHWADDR` event. -/
def Event.isSetHw : Event → Bool
  | .setHwAddr _ _ => true
  | _ => false

/-- Recognize the bring-down `SIOCSIFFLAGS` event (line 106). -/
def Event.isDown : Event → Bool
  | .setFlagsDown _ _ => true
  | _ => false

/-- Recognize the best-effort recovery `SIOCSIFFLAGS` event (line 120). -/
def Event.isRecover : Event → Bool
  | .setFlagsRecover _ _ => true
  | _ => false

/-- Outcome of one run of `change_mac_address`: the C return value, the
ordered trace of privileged operations issued, and the final kernel
state of the interface. -/
structure CResult where
  result : Bool
  trace : List Event
  final : IfState
  deriving DecidableEq, Repr

/-- C lines 78-136.  Each early `return false` of the C code is one
branch; a failing ioctl leaves the kernel state unchanged.  The
bring-down mask `&&& 0xFFFE` is `ifr_flags &= ~IFF_UP` on the 16-bit
`short` flags field. -/
def change_mac_address (env : Env) (st : IfState) (new_mac : MacAddress) : CResult :=
  -- line 84: socket(AF_INET, SOCK_DGRAM, IPPROTO_IP)
  if env.socketOk = false then
    { result := false, trace := [Event.socketCall false], final := st }
  else
    -- line 95: ioctl(socket_fd, SIOCGIFFLAGS, &interface_request)
    if env.getFlagsOk = false then
      { result := false,
        trace := [Event.socketCall true, Event.getFlags false, Event.closeFd],
        final := st }
    else
      -- line 101: original_flags = interface_request.ifr_flags
      let original_flags := st.flags
      -- line 104: interface_request.ifr_flags &= ~IFF_UP
      let down_flags := original_flags &&& 0xFFFE
      -- line 106: ioctl(socket_fd, SIOCSIFFLAGS, ...) bring-down
      if env.setFlagsDownOk = false then
        { result := false,
          trace := [Event.socketCall true, Event.getFlags true,
                    Event.setFlagsDown down_flags false, Event.closeFd],
          final := st }
      else
        let st1 : IfState := { st with flags := down_flags }
        -- line 117: ioctl(socket_fd, SIOCSIFHWADDR, ...)
        if env.setHwAddrOk = false then
          -- lines 119-120: best-effort restore, result unchecked
          let st2 : IfState :=
            if env.recoverOk then { st1 with flags := original_flags } else st1
          { result := false,
            trace := [Event.socketCall true, Event.getFlags true,
                      Event.setFlagsDown down_flags true,
                      Event.setHwAddr new_mac.bytes false,
                      Event.setFlagsRecover original_flags env.recoverOk,
                      Event.closeFd],
            final := st2 }
        else
          let st2 : IfState := { st1 with hwaddr := new_mac.bytes }
          -- line 128: ioctl(socket_fd, SIOCSIFFLAGS, ...) bring-up
          if env.setFlagsUpOk = false then
            { result := false,
              trace := [Event.socketCall true, Event.getFlags true,
                        Event.setFlagsDown down_flags true,
                        Event.setHwAddr new_mac.bytes true,
                        Event.setFlagsUp original_flags false, Event.closeFd],
              final := st2 }
          else
            { result := true,
              trace := [Event.socketCall true, Event.getFlags true,
                        Event.setFlagsDown down_flags true,
                        Event.setHwAddr new_mac.bytes true,
                        Event.setFlagsUp original_flags true, Event.closeFd],
              final := { st2 with flags := original_flags } }

/-- `strncpy(dst, src, n)` into a fresh buffer: copy bytes of the C
string `src` until its terminating 0 or until `n` bytes are written,
then pad with 0 up to exactly `n` bytes. -/
def strncpy_buf : List Nat → Nat → List Nat
  | _, 0 => []
  | [], n + 1 => List.replicate (n + 1) 0
  | c :: cs, n + 1 => if c = 0 then List.replicate (n + 1) 0 else c :: strncpy_buf cs n

/-- C lines 91-92: the 16-byte `ifr_name` buffer after
`strncpy(interface_request.ifr_name, interface_name, IFNAMSIZ - 1)`
and `interface_request.ifr_name[IFNAMSIZ - 1] = 0`. -/
def set_ifr_name (interface_name : List Nat) : List Nat :=
  strncpy_buf interface_name (IFNAMSIZ - 1) ++ [0]

/-- `EXIT_SUCCESS`. -/
def EXIT_SUCCESS : Nat := 0

/-- `EXIT_FAILURE`. -/
def EXIT_FAILURE : Nat := 1

/-- Observable behaviour of one run of `main`: exit status, whether the
usage message was printed to stderr, the MAC printed on stdout (if
any), whether the failure message was printed, how many times
`generate_mac_address` was invoked, and the list of
`change_mac_address` invocations with their arguments. -/
structure MainResult where
  exit : Nat
  usagePrinted : Bool
  printedMac : Option MacAddress
  failMsgPrinted : Bool
  generated : Nat
  calls : List (List Nat × MacAddress)
  deriving DecidableEq, Repr

/-- C lines 148-178.  `argv` is the argument vector (each argument a
byte list), `r` the `rand()` stream after `srand(getpid())`, `env` and
`st` the syscall oracle and kernel state passed on to
`change_mac_address`. -/
def main_run (argv : List (List Nat)) (r : Nat → Nat) (env : Env) (st : IfState) :
    MainResult :=
  -- lines 150-155: usage check
  if argv.length < 2 then
    { exit := EXIT_FAILURE, usagePrinted := true, printedMac := none,
      failMsgPrinted := false, generated := 0, calls := [] }
  else
    -- line 161: one random address
    let new_mac := generate_mac_address r
    -- line 164: the single change_mac_address call on argv[1]
    if (change_mac_address env st new_mac).result then
      { exit := EXIT_SUCCESS, usagePrinted := false, printedMac := some new_mac,
        failMsgPrinted := false, generated := 1,
        calls := [(argv.getD 1 [], new_mac)] }
    else
      { exit := EXIT_FAILURE, usagePrinted := false, printedMac := none,
        failMsgPrinted := true, generated := 1,
        calls := [(argv.getD 1 [], new_mac)] }

/-- C6: `change_mac_address` returns true exactly when all five
privileged operations (socket creation, SIOCGIFFLAGS, bring-down
SIOCSIFFLAGS, SIOCSIFHWADDR, restore SIOCSIFFLAGS) succeed, and false
exactly when one of them fails; the outcome of the unchecked recovery
ioctl never affects the return value. -/
theorem change_mac_result_iff (env : Env) (st : IfState) (mac : MacAddress) :
    (change_mac_address env st mac).result =
      (env.socketOk && env.getFlagsOk && env.setFlagsDownOk &&
       env.setHwAddrOk && env.setFlagsUpOk) := by
  obtain ⟨s, g, d, h, r, u⟩ := env
  cases s <;> cases g <;> cases d <;> cases h <;> cases u <;> rfl

/-- C2: whenever `change_mac_address` returns true, the interface's
hardware address is exactly the six bytes of `new_mac` and its flags
are back to their original value. -/
theorem change_mac_success_state (env : Env) (st : IfState) (mac : MacAddress)
    (h : (change_mac_address env st mac).result = true) :
    (change_mac_address env st mac).final.hwaddr = mac.bytes ∧
    (change_mac_address env st mac).final.flags = st.flags := by
  obtain ⟨s, g, d, hw, r, u⟩ := env
  cases s <;> cases g <;> cases d <;> cases hw <;> cases u <;>
    simp_all [change_mac_address]

/-- Witness for C2 at a concrete run in which every operation
succeeds. -/
theorem change_mac_success_state_witness :
    (change_mac_address ⟨true, true, true, true, true, true⟩
        ⟨1, [0, 0, 0, 0, 0, 0]⟩ ⟨[2, 3, 4, 5, 6, 7]⟩).final.hwaddr
      = [2, 3, 4, 5, 6, 7] ∧
    (change_mac_address ⟨true, true, true, true, true, true⟩
        ⟨1, [0, 0, 0, 0, 0, 0]⟩ ⟨[2, 3, 4, 5, 6, 7]⟩).final.flags = 1 :=
  change_mac_success_state _ _ _ (by decide)

/-- C9: on every path on which the socket was created, exactly one
`close(socket_fd)` is issued before the function returns, whatever the
return value. -/
theorem socket_closed_once (env : Env) (st : IfState) (mac : MacAddress)
    (h : env.socketOk = true) :
    ((change_mac_address env st mac).trace.countP Event.isClose) = 1 := by
  obtain ⟨s, g, d, hw, r, u⟩ := env
  cases s <;> cases g <;> cases d <;> cases hw <;> cases r <;> cases u <;>
    simp_all [change_mac_address, Event.isClose]

/-- Witness for C9 at a concrete run in which the address set fails. -/
theorem socket_closed_once_witness :
    ((change_mac_address ⟨true, true, true, false, false, true⟩
        ⟨1, [0, 0, 0, 0, 0, 0]⟩ ⟨[2, 3, 4, 5, 6, 7]⟩).trace.countP Event.isClose) = 1 :=
  socket_closed_once _ _ _ rfl

/-- C5: if SIOCSIFHWADDR fails after a successful bring-down, the
function returns false, issues exactly one best-effort recovery
SIOCSIFFLAGS carrying the original flags (its outcome
`env.recoverOk` is recorded but never examined: the result is false
either way), performs no other operation besides close, and leaves
the hardware address unchanged. -/
theorem hwaddr_failure_recovery (env : Env) (st : IfState) (mac : MacAddress)
    (hs : env.socketOk = true) (hg : env.getFlagsOk = true)
    (hd : env.setFlagsDownOk = true) (hh : env.setHwAddrOk = false) :
    (change_mac_address env st mac).result = false ∧
    (change_mac_address env st mac).trace =
      [Event.socketCall true, Event.getFlags true,
       Event.setFlagsDown (st.flags &&& 0xFFFE) true,
       Event.setHwAddr mac.bytes false,
       Event.setFlagsRecover st.flags env.recoverOk, Event.closeFd] ∧
    ((change_mac_address env st mac).trace.countP Event.isRecover) = 1 ∧
    (change_mac_address env st mac).final.hwaddr = st.hwaddr := by
  obtain ⟨s, g, d, hw, r, u⟩ := env
  cases s <;> cases g <;> cases d <;> cases hw <;> cases r <;> cases u <;>
    simp_all [change_mac_address, Event.isRecover]

/-- Witness for C5 at a concrete run with a failing SIOCSIFHWADDR and a
failing recovery. -/
theorem hwaddr_failure_recovery_witness :
    (change_mac_address ⟨true, true, true, false, false, true⟩
        ⟨1, [9, 9, 9, 9, 9, 9]⟩ ⟨[2, 0, 0, 0, 0, 0]⟩).result = false ∧
    (change_mac_address ⟨true, true, true, false, false, true⟩
        ⟨1, [9, 9, 9, 9, 9, 9]⟩ ⟨[2, 0, 0, 0, 0, 0]⟩).trace =
      [Event.socketCall true, Event.getFlags true,
       Event.setFlagsDown (1 &&& 0xFFFE) true,
       Event.setHwAddr [2, 0, 0, 0, 0, 0] false,
       Event.setFlagsRecover 1 false, Event.closeFd] ∧
    ((change_mac_address ⟨true, true, true, false, false, true⟩
        ⟨1, [9, 9, 9, 9, 9, 9]⟩ ⟨[2, 0, 0, 0, 0, 0]⟩).trace.countP Event.isRecover) = 1 ∧
    (change_mac_address ⟨true, true, true, false, false, true⟩
        ⟨1, [9, 9, 9, 9, 9, 9]⟩ ⟨[2, 0, 0, 0, 0, 0]⟩).final.hwaddr = [9, 9, 9, 9, 9, 9] :=
  hwaddr_failure_recovery _ _ _ rfl rfl rfl rfl

/-- C1 fails on the code: in the run where every operation succeeds
except the final bring-up SIOCSIFFLAGS, the function returns false
after a successful bring-down, yet the interface's flags end up 0, not
their original value 1 (IFF_UP lost): the interface is left
administratively down. -/
theorem flags_restore_counterexample :
    (change_mac_address ⟨true, true, true, true, true, false⟩
        ⟨1, [0, 0, 0, 0, 0, 0]⟩ ⟨[2, 0, 0, 0, 0, 0]⟩).result = false ∧
    Event.setFlagsDown 0 true ∈
      (change_mac_address ⟨true, true, true, true, true, false⟩
        ⟨1, [0, 0, 0, 0, 0, 0]⟩ ⟨[2, 0, 0, 0, 0, 0]⟩).trace ∧
    (change_mac_address ⟨true, true, true, true, true, false⟩
        ⟨1, [0, 0, 0, 0, 0, 0]⟩ ⟨[2, 0, 0, 0, 0, 0]⟩).final.flags ≠ 1 := by
  decide

/-- C1 amended: on every false-returning run after a successful
bring-down, a SIOCSIFFLAGS operation carrying the original flags is
issued before the function returns (the best-effort recovery after a
failed address set, or the bring-up itself), and whenever that issued
operation succeeds the flags are indeed back to their original value;
the restoration is only best-effort, so if that ioctl fails the
interface may stay down. -/
theorem flags_restore_attempted (env : Env) (st : IfState) (mac : MacAddress)
    (hs : env.socketOk = true) (hg : env.getFlagsOk = true)
    (hd : env.setFlagsDownOk = true)
    (hr : (change_mac_address env st mac).result = false) :
    ∃ ok, (Event.setFlagsRecover st.flags ok ∈ (change_mac_address env st mac).trace ∨
           Event.setFlagsUp st.flags ok ∈ (change_mac_address env st mac).trace) ∧
      (ok = true → (change_mac_address env st mac).final.flags = st.flags) := by
  obtain ⟨s, g, d, hw, r, u⟩ := env
  subst hs; subst hg; subst hd
  cases hw
  · cases r
    · exact ⟨false, Or.inl (by simp [change_mac_address]), by simp⟩
    · exact ⟨true, Or.inl (by simp [change_mac_address]),
        fun _ => by simp [change_mac_address]⟩
  · cases u
    · exact ⟨false, Or.inr (by simp [change_mac_address]), by simp⟩
    · simp [change_mac_address] at hr

/-- Witness for the amended C1: the address set fails and the recovery
succeeds, so the original flags come back. -/
theorem flags_restore_attempted_witness :
    ∃ ok, (Event.setFlagsRecover 1 ok ∈
            (change_mac_address ⟨true, true, true, false, true, true⟩
              ⟨1, [0, 0, 0, 0, 0, 0]⟩ ⟨[2, 0, 0, 0, 0, 0]⟩).trace ∨
           Event.setFlagsUp 1 ok ∈
            (change_mac_address ⟨true, true, true, false, true, true⟩
              ⟨1, [0, 0, 0, 0, 0, 0]⟩ ⟨[2, 0, 0, 0, 0, 0]⟩).trace) ∧
      (ok = true →
        (change_mac_address ⟨true, true, true, false, true, true⟩
          ⟨1, [0, 0, 0, 0, 0, 0]⟩ ⟨[2, 0, 0, 0, 0, 0]⟩).final.flags = 1) :=
  flags_restore_attempted _ _ _ rfl rfl rfl (by decide)

/-- C4: the privileged operations are issued in the fixed order
bring-down, address set, bring-up.  Each of the bring-down and the
address set is issued at most once; whenever the address set is issued,
a successful bring-down clearing IFF_UP was issued earlier; and
whenever the bring-up is issued, a successful address set was issued
earlier (the bring-up carries the original flags). -/
theorem change_mac_operation_order (env : Env) (st : IfState) (mac : MacAddress) :
    ((change_mac_address env st mac).trace.countP Event.isSetHw ≤ 1) ∧
    ((change_mac_address env st mac).trace.countP Event.isDown ≤ 1) ∧
    ((∃ ok, Event.setHwAddr mac.bytes ok ∈ (change_mac_address env st mac).trace) →
      ∃ ok2, List.Sublist
        [Event.setFlagsDown (st.flags &&& 0xFFFE) true, Event.setHwAddr mac.bytes ok2]
        (change_mac_address env st mac).trace) ∧
    (∀ f ok, Event.setFlagsUp f ok ∈ (change_mac_address env st mac).trace →
      List.Sublist [Event.setHwAddr mac.bytes true, Event.setFlagsUp st.flags ok]
        (change_mac_address env st mac).trace) := by
  obtain ⟨s, g, d, hw, r, u⟩ := env
  cases s
  · refine ⟨by simp [change_mac_address, Event.isSetHw],
      by simp [change_mac_address, Event.isDown], ?_, ?_⟩
    · rintro ⟨ok, h⟩; simp [change_mac_address] at h
    · intro f ok h; simp [change_mac_address] at h
  · cases g
    · refine ⟨by simp [change_mac_address, Event.isSetHw],
        by simp [change_mac_address, Event.isDown], ?_, ?_⟩
      · rintro ⟨ok, h⟩; simp [change_mac_address] at h
      · intro f ok h; simp [change_mac_address] at h
    · cases d
      · refine ⟨by simp [change_mac_address, Event.isSetHw],
          by simp [change_mac_address, Event.isDown], ?_, ?_⟩
        · rintro ⟨ok, h⟩; simp [change_mac_address] at h
        · intro f ok h; simp [change_mac_address] at h
      · cases hw
        · have ht : (change_mac_address ⟨true, true, true, false, r, u⟩ st mac).trace =
              [Event.socketCall true, Event.getFlags true,
               Event.setFlagsDown (st.flags &&& 0xFFFE) true,
               Event.setHwAddr mac.bytes false,
               Event.setFlagsRecover st.flags r, Event.closeFd] := rfl
          refine ⟨by rw [ht]; simp [Event.isSetHw],
            by rw [ht]; simp [Event.isDown], ?_, ?_⟩
          · intro _
            refine ⟨false, ?_⟩
            rw [ht]
            exact ((((List.nil_sublist
              [Event.setFlagsRecover st.flags r, Event.closeFd]).cons₂
                (Event.setHwAddr mac.bytes false)).cons₂
                (Event.setFlagsDown (st.flags &&& 0xFFFE) true)).cons
                (Event.getFlags true)).cons (Event.socketCall true)
          · intro f ok h
            rw [ht] at h
            simp at h
        · cases u
          · have ht : (change_mac_address ⟨true, true, true, true, r, false⟩ st mac).trace =
                [Event.socketCall true, Event.getFlags true,
                 Event.setFlagsDown (st.flags &&& 0xFFFE) true,
                 Event.setHwAddr mac.bytes true,
                 Event.setFlagsUp st.flags false, Event.closeFd] := rfl
            refine ⟨by rw [ht]; simp [Event.isSetHw],
              by rw [ht]; simp [Event.isDown], ?_, ?_⟩
            · intro _
              refine ⟨true, ?_⟩
              rw [ht]
              exact ((((List.nil_sublist
                [Event.setFlagsUp st.flags false, Event.closeFd]).cons₂
                  (Event.setHwAddr mac.bytes true)).cons₂
                  (Event.setFlagsDown (st.flags &&& 0xFFFE) true)).cons
                  (Event.getFlags true)).cons (Event.socketCall true)
            · intro f ok h
              rw [ht] at h
              simp at h
              obtain ⟨hf, hok⟩ := h
              subst hf; subst hok
              rw [ht]
              exact (((((List.nil_sublist [Event.closeFd]).cons₂
                (Event.setFlagsUp st.flags false)).cons₂
                (Event.setHwAddr mac.bytes true)).cons
                (Event.setFlagsDown (st.flags &&& 0xFFFE) true)).cons
                (Event.getFlags true)).cons (Event.socketCall true)
          · have ht : (change_mac_address ⟨true, true, true, true, r, true⟩ st mac).trace =
                [Event.socketCall true, Event.getFlags true,
                 Event.setFlagsDown (st.flags &&& 0xFFFE) true,
                 Event.setHwAddr mac.bytes true,
                 Event.setFlagsUp st.flags true, Event.closeFd] := rfl
            refine ⟨by rw [ht]; simp [Event.isSetHw],
              by rw [ht]; simp [Event.isDown], ?_, ?_⟩
            · intro _
              refine ⟨true, ?_⟩
              rw [ht]
              exact ((((List.nil_sublist
                [Event.setFlagsUp st.flags true, Event.closeFd]).cons₂
                  (Event.setHwAddr mac.bytes true)).cons₂
                  (Event.setFlagsDown (st.flags &&& 0xFFFE) true)).cons
                  (Event.getFlags true)).cons (Event.socketCall true)
            · intro f ok h
              rw [ht] at h
              simp at h
              obtain ⟨hf, hok⟩ := h
              subst hf; subst hok
              rw [ht]
              exact (((((List.nil_sublist [Event.closeFd]).cons₂
                (Event.setFlagsUp st.flags true)).cons₂
                (Event.setHwAddr mac.bytes true)).cons
                (Event.setFlagsDown (st.flags &&& 0xFFFE) true)).cons
                (Event.getFlags true)).cons (Event.socketCall true)

/-- Witness for C4 at the all-successful concrete run. -/
theorem change_mac_operation_order_witness :
    (∃ ok2, List.Sublist
      [Event.setFlagsDown (1 &&& 0xFFFE) true, Event.setHwAddr [2, 0, 0, 0, 0, 0] ok2]
      (change_mac_address ⟨true, true, true, true, true, true⟩
        ⟨1, [3, 3, 3, 3, 3, 3]⟩ ⟨[2, 0, 0, 0, 0, 0]⟩).trace) ∧
    List.Sublist [Event.setHwAddr [2, 0, 0, 0, 0, 0] true, Event.setFlagsUp 1 true]
      (change_mac_address ⟨true, true, true, true, true, true⟩
        ⟨1, [3, 3, 3, 3, 3, 3]⟩ ⟨[2, 0, 0, 0, 0, 0]⟩).trace :=
  ⟨(change_mac_operation_order ⟨true, true, true, true, true, true⟩
      ⟨1, [3, 3, 3, 3, 3, 3]⟩ ⟨[2, 0, 0, 0, 0, 0]⟩).2.2.1 ⟨true, by decide⟩,
   (change_mac_operation_order ⟨true, true, true, true, true, true⟩
      ⟨1, [3, 3, 3, 3, 3, 3]⟩ ⟨[2, 0, 0, 0, 0, 0]⟩).2.2.2 1 true (by decide)⟩

/-- Bits 2-7 of the adjusted first byte agree with the corresponding
bit of the raw `rand()` value: `(x % 256 & 0xFE) | 0x02` only touches
bits 0 and 1. -/
theorem testBit_first_byte (x k : Nat) (h2 : 2 ≤ k) (h8 : k < 8) :
    Nat.testBit (((x % 256) &&& 0xFE) ||| 0x02) k = Nat.testBit x k := by
  have hland : Nat.testBit 254 k = true := by interval_cases k <;> decide
  have hlor : Nat.testBit 2 k = false := by interval_cases k <;> decide
  simp [Nat.testBit_lor, Nat.testBit_land, hland, hlor]
  rw [show (256 : Nat) = 2 ^ 8 from rfl, Nat.testBit_mod_two_pow]
  simp [h8]

/-- C3: for every `rand()` stream, `generate_mac_address` returns six
bytes whose first byte has the locally-administered bit (bit 1) set and
the multicast bit (bit 0) clear, while bits 2-7 of the first byte and
all bits of the other five bytes come from the random source
unchanged. -/
theorem generate_mac_locally_administered (r : Nat → Nat) :
    (generate_mac_address r).bytes.length = 6 ∧
    Nat.testBit ((generate_mac_address r).bytes.getD 0 0) 1 = true ∧
    Nat.testBit ((generate_mac_address r).bytes.getD 0 0) 0 = false ∧
    (∀ k, 2 ≤ k → k < 8 →
      Nat.testBit ((generate_mac_address r).bytes.getD 0 0) k = Nat.testBit (r 0) k) ∧
    (∀ i, 1 ≤ i → i < 6 → (generate_mac_address r).bytes.getD i 0 = r i % 256) := by
  refine ⟨rfl, ?_, ?_, ?_, ?_⟩
  · show Nat.testBit (((r 0 % 256) &&& 0xFE) ||| 0x02) 1 = true
    simp [Nat.testBit_lor, Nat.testBit_land,
      show Nat.testBit 2 1 = true from by decide]
  · show Nat.testBit (((r 0 % 256) &&& 0xFE) ||| 0x02) 0 = false
    simp [Nat.testBit_lor, Nat.testBit_land,
      show Nat.testBit 254 0 = false from by decide,
      show Nat.testBit 2 0 = false from by decide]
  · intro k h2 h8
    exact testBit_first_byte (r 0) k h2 h8
  · intro i h1 h6
    interval_cases i <;> rfl

/-- Witness for C3: bit 7 of the first byte and the whole third byte
agree with the random source at a concrete stream. -/
theorem generate_mac_locally_administered_witness :
    Nat.testBit ((generate_mac_address (fun i => 300 + i)).bytes.getD 0 0) 7
      = Nat.testBit 300 7 ∧
    (generate_mac_address (fun i => 300 + i)).bytes.getD 2 0 = 302 % 256 :=
  ⟨(generate_mac_locally_administered (fun i => 300 + i)).2.2.2.1 7
      (by decide) (by decide),
   (generate_mac_locally_administered (fun i => 300 + i)).2.2.2.2 2
      (by decide) (by decide)⟩

/-- C7: when an interface argument is present, `main` generates one
random address and invokes `change_mac_address` exactly once, with
`argv[1]` and that address. -/
theorem main_single_change (argv : List (List Nat)) (r : Nat → Nat) (env : Env)
    (st : IfState) (h : 2 ≤ argv.length) :
    (main_run argv r env st).generated = 1 ∧
    (main_run argv r env st).calls = [(argv.getD 1 [], generate_mac_address r)] := by
  have h2 : ¬ argv.length < 2 := by omega
  by_cases hres : (change_mac_address env st (generate_mac_address r)).result = true
  · simp [main_run, h2, hres]
  · simp [main_run, h2, hres]

/-- Witness for C7 at a concrete two-argument invocation. -/
theorem main_single_change_witness :
    (main_run [[109], [101]] (fun _ => 0) ⟨true, true, true, true, true, true⟩
        ⟨1, [0, 0, 0, 0, 0, 0]⟩).generated = 1 ∧
    (main_run [[109], [101]] (fun _ => 0) ⟨true, true, true, true, true, true⟩
        ⟨1, [0, 0, 0, 0, 0, 0]⟩).calls
      = [([101], generate_mac_address (fun _ => 0))] :=
  main_single_change _ _ _ _ (by decide)

/-- C10: with fewer than two arguments `main` prints the usage message,
returns `EXIT_FAILURE`, generates nothing and touches no interface;
otherwise it returns `EXIT_SUCCESS` and prints the new MAC exactly when
`change_mac_address` returns true, and prints the failure message and
returns `EXIT_FAILURE` when it returns false. -/
theorem main_exit_behavior (argv : List (List Nat)) (r : Nat → Nat) (env : Env)
    (st : IfState) :
    (argv.length < 2 →
      (main_run argv r env st).exit = EXIT_FAILURE ∧
      (main_run argv r env st).usagePrinted = true ∧
      (main_run argv r env st).generated = 0 ∧
      (main_run argv r env st).calls = []) ∧
    (2 ≤ argv.length →
      (((main_run argv r env st).exit = EXIT_SUCCESS) ↔
        (change_mac_address env st (generate_mac_address r)).result = true) ∧
      ((change_mac_address env st (generate_mac_address r)).result = true →
        (main_run argv r env st).printedMac = some (generate_mac_address r) ∧
        (main_run argv r env st).failMsgPrinted = false) ∧
      ((change_mac_address env st (generate_mac_address r)).result = false →
        (main_run argv r env st).failMsgPrinted = true ∧
        (main_run argv r env st).exit = EXIT_FAILURE)) := by
  constructor
  · intro h
    simp [main_run, h]
  · intro h
    have h2 : ¬ argv.length < 2 := by omega
    by_cases hres : (change_mac_address env st (generate_mac_address r)).result = true
    · simp [main_run, h2, hres, EXIT_SUCCESS, EXIT_FAILURE]
    · simp [main_run, h2, hres, EXIT_SUCCESS, EXIT_FAILURE]

/-- Witness for C10: the usage path at a one-argument invocation, and
the success equivalence at a two-argument invocation. -/
theorem main_exit_behavior_witness :
    ((main_run [[109]] (fun _ => 0) ⟨true, true, true, true, true, true⟩
        ⟨1, [0, 0, 0, 0, 0, 0]⟩).exit = EXIT_FAILURE ∧
     (main_run [[109]] (fun _ => 0) ⟨true, true, true, true, true, true⟩
        ⟨1, [0, 0, 0, 0, 0, 0]⟩).usagePrinted = true ∧
     (main_run [[109]] (fun _ => 0) ⟨true, true, true, true, true, true⟩
        ⟨1, [0, 0, 0, 0, 0, 0]⟩).generated = 0 ∧
     (main_run [[109]] (fun _ => 0) ⟨true, true, true, true, true, true⟩
        ⟨1, [0, 0, 0, 0, 0, 0]⟩).calls = []) ∧
    ((main_run [[109], [101]] (fun _ => 0) ⟨true, true, true, true, true, true⟩
        ⟨1, [0, 0, 0, 0, 0, 0]⟩).exit = EXIT_SUCCESS ↔
      (change_mac_address ⟨true, true, true, true, true, true⟩ ⟨1, [0, 0, 0, 0, 0, 0]⟩
        (generate_mac_address (fun _ => 0))).result = true) :=
  ⟨(main_exit_behavior [[109]] (fun _ => 0) ⟨true, true, true, true, true, true⟩
      ⟨1, [0, 0, 0, 0, 0, 0]⟩).1 (by decide),
   ((main_exit_behavior [[109], [101]] (fun _ => 0) ⟨true, true, true, true, true, true⟩
      ⟨1, [0, 0, 0, 0, 0, 0]⟩).2 (by decide)).1⟩

/-- The `strncpy` model writes exactly `n` bytes. -/
theorem strncpy_buf_length (src : List Nat) (n : Nat) :
    (strncpy_buf src n).length = n := by
  induction src generalizing n with
  | nil => cases n <;> simp [strncpy_buf]
  | cons c cs ih =>
    cases n with
    | zero => rfl
    | succ m =>
      by_cases hc : c = 0
      · simp [strncpy_buf, hc]
      · simp [strncpy_buf, hc, ih]

/-- A zero-filled buffer reads 0 at every position. -/
theorem replicate_zero_getD (n i : Nat) :
    (List.replicate n (0 : Nat)).getD i 0 = 0 := by
  induction n generalizing i with
  | zero => simp
  | succ m ih =>
    cases i with
    | zero => simp [List.replicate]
    | succ j => simp [List.replicate, ih]

/-- Every nonzero byte of the `strncpy` buffer is a byte of the source
string at the same position. -/
theorem strncpy_buf_getD_nonzero (src : List Nat) (n i : Nat)
    (hnz : (strncpy_buf src n).getD i 0 ≠ 0) :
    i < src.length ∧ (strncpy_buf src n).getD i 0 = src.getD i 0 := by
  induction src generalizing n i with
  | nil =>
    exfalso
    apply hnz
    cases n with
    | zero => simp [strncpy_buf]
    | succ m => simp [strncpy_buf, replicate_zero_getD]
  | cons c cs ih =>
    cases n with
    | zero =>
      exfalso; apply hnz; simp [strncpy_buf]
    | succ m =>
      by_cases hc : c = 0
      · exfalso; apply hnz; simp [strncpy_buf, hc, replicate_zero_getD]
      · cases i with
        | zero =>
          exact ⟨by simp, by simp [strncpy_buf, hc]⟩
        | succ j =>
          have hnz' : (strncpy_buf cs m).getD j 0 ≠ 0 := by
            simpa [strncpy_buf, hc] using hnz
          obtain ⟨h1, h2⟩ := ih m j hnz'
          have hcons : strncpy_buf (c :: cs) (m + 1) = c :: strncpy_buf cs m := by
            simp [strncpy_buf, hc]
          exact ⟨by simpa using Nat.succ_lt_succ h1,
            by rw [hcons, List.getD_cons_succ, List.getD_cons_succ, h2]⟩

/-- C8: the `ifr_name` buffer set up on lines 91-92 is exactly
`IFNAMSIZ` bytes for every interface-name string, its last byte is the
null terminator, and every nonzero byte in it (necessarily below index
`IFNAMSIZ - 1`) is a byte of the given name at the same position: the
buffer is never overrun and the kernel always sees a terminated
name. -/
theorem ifr_name_safe (interface_name : List Nat) :
    (set_ifr_name interface_name).length = IFNAMSIZ ∧
    (set_ifr_name interface_name).getD (IFNAMSIZ - 1) 1 = 0 ∧
    ∀ i, i < IFNAMSIZ - 1 → (set_ifr_name interface_name).getD i 0 ≠ 0 →
      i < interface_name.length ∧
      (set_ifr_name interface_name).getD i 0 = interface_name.getD i 0 := by
  have hlen : (strncpy_buf interface_name (IFNAMSIZ - 1)).length = IFNAMSIZ - 1 :=
    strncpy_buf_length _ _
  refine ⟨?_, ?_, ?_⟩
  · rw [set_ifr_name, List.length_append, hlen]
    decide
  · rw [set_ifr_name, List.getD_append_right _ _ _ _ (by simp [hlen])]
    simp [hlen]
  · intro i hi hnz
    rw [set_ifr_name, List.getD_append _ _ _ _ (by rw [hlen]; exact hi)] at hnz ⊢
    exact strncpy_buf_getD_nonzero _ _ _ hnz

/-- Witness for C8 at a 20-byte name (longer than `IFNAMSIZ`). -/
theorem ifr_name_safe_witness :
    (set_ifr_name (List.replicate 20 65)).length = IFNAMSIZ ∧
    (set_ifr_name (List.replicate 20 65)).getD (IFNAMSIZ - 1) 1 = 0 ∧
    (3 < (List.replicate 20 65 : List Nat).length ∧
      (set_ifr_name (List.replicate 20 65)).getD 3 0
        = (List.replicate 20 65 : List Nat).getD 3 0) :=
  ⟨(ifr_name_safe (List.replicate 20 65)).1,
   (ifr_name_safe (List.replicate 20 65)).2.1,
   (ifr_name_safe (List.replicate 20 65)).2.2 3 (by decide) (by decide)⟩
